import Mathlib

/-!
# Challenge-response smart-lock firmware: verification development

Shallow embedding of the authentication core of `src/main/main.c`
(ESP32-S3 smart-lock firmware): the challenge issuance handler
`get_challenge_handler`, the verification handler `post_response_handler`,
and the global mutable state (`pre_shared_key`, `current_challenge`,
`lock_is_open`, the LED color).

Bytes are modelled as `Nat`; a C string value is the list of its bytes up
to (excluding) the first NUL.  The HTTP body of a POST /response request
is an arbitrary byte list `payload` with `content_len = payload.length`;
`httpd_req_recv` is modelled as delivering all `content_len` bytes
(`recv_len = total_len`), returning `≤ 0` exactly when the body is empty.
The 4-second blocking hold and the LED writes are modelled as an explicit
event trace emitted by the handler, in program order.
-/

/-- RGB color written to the single addressable LED by `set_led_color`. -/
structure Rgb where
  r : Nat
  g : Nat
  b : Nat
deriving DecidableEq

/-- Solid red: the locked indication (`set_led_color(255, 0, 0)`). -/
def red : Rgb := ⟨255, 0, 0⟩

/-- Solid green: the unlocked indication (`set_led_color(0, 255, 0)`). -/
def green : Rgb := ⟨0, 255, 0⟩

/-- Solid blue: the rejected indication (`set_led_color(0, 0, 255)`). -/
def blue : Rgb := ⟨0, 0, 255⟩

/-- The firmware's global mutable state (main.c lines 40-49): the
pre-shared key `pre_shared_key`, the outstanding challenge buffer
`current_challenge`, the lock flag `lock_is_open`, and the LED color last
written.  The two string buffers are modelled by their C-string values
(bytes before the first NUL). -/
structure LockState where
  preSharedKey : List Nat
  currentChallenge : List Nat
  lockIsOpen : Bool
  led : Rgb
deriving DecidableEq

/-- Byte list of a Lean string literal (each char's code point; all
literals used are ASCII, so these are the C bytes). -/
def strBytes (s : String) : List Nat := s.toList.map Char.toNat

/-- `pre_shared_key[32] = "DEFAULT_KEY"` as a byte list. -/
def defaultKey : List Nat := strBytes "DEFAULT_KEY"

/-- State after `app_main` startup: key `"DEFAULT_KEY"`, zero-initialized
challenge buffer (C string value: empty), `lock_is_open = false`, LED set
to red (main.c line 303). -/
def initState : LockState :=
  { preSharedKey := defaultKey
    currentChallenge := []
    lockIsOpen := false
    led := red }

/-- Decimal digit bytes of `n`, most significant first, fuel-bounded
(structural recursion; fuel 10 covers every 32-bit value). -/
def digitsAux : Nat → Nat → List Nat
  | 0, _ => []
  | _ + 1, 0 => []
  | fuel + 1, n + 1 => digitsAux fuel ((n + 1) / 10) ++ [(n + 1) % 10 + 48]

/-- `snprintf(buf, 64, "%u", (unsigned)rand_val)`: decimal rendering of a
32-bit unsigned value (at most 10 digit bytes, so never truncated by the
64-byte challenge buffer). -/
def renderU32 (n : Nat) : List Nat :=
  let m := n % 4294967296
  if m = 0 then [48] else digitsAux 10 m

/-- `get_challenge_handler` (main.c lines 109-117): draws `rand_val` from
`esp_random()` (modelled as the input), stores its decimal rendering as
the sole outstanding challenge, and returns that token to the caller. -/
def getChallenge (s : LockState) (randVal : Nat) : LockState × List Nat :=
  let c := renderU32 randVal
  ({ s with currentChallenge := c }, c)

/-- The C-string value held in a buffer containing the bytes `bs` then a
NUL: the bytes before the first NUL.  `strcmp` equality of two buffers is
equality of their `cString` values. -/
def cString (bs : List Nat) : List Nat := bs.takeWhile (fun b => b != 0)

/-- `snprintf(expected, 128, "%s%s", current_challenge, pre_shared_key)`:
the expected token is the concatenation of the outstanding challenge and
the pre-shared key (challenge ≤ 63 bytes and key ≤ 31 bytes, so the
128-byte buffer never truncates). -/
def expectedToken (s : LockState) : List Nat :=
  s.currentChallenge ++ s.preSharedKey

/-- Outcome taxonomy of a POST /response call: `accepted` is the 200
"Unlocked" branch, `rejected` the 401 "Invalid token" branch, `malformed`
the two 400 branches ("Response too long" / "No response data
received"). -/
inductive VerifyOutcome where
  | accepted
  | rejected
  | malformed
deriving DecidableEq

/-- Observable side effects of a handler run, in program order. -/
inductive Event where
  | setLed (c : Rgb)
  | respondOk (body : List Nat)
  | respondErr (status : Nat) (msg : List Nat)
  | delayMs (ms : Nat)
deriving DecidableEq

/-- `sizeof(resp_buf)` in `post_response_handler`. -/
def RESP_BUF_SIZE : Nat := 64

/-- Decision of `post_response_handler` (main.c lines 140-183) without the
side effects: 400 if `content_len >= 64`; 400 if `httpd_req_recv` returns
`<= 0` (empty body); otherwise `strcmp(resp_buf, expected)` where
`resp_buf` is the received bytes NUL-terminated at `recv_len`, so the
comparison is between the payload's C-string value and the expected
token. -/
def verifyOutcome (s : LockState) (payload : List Nat) : VerifyOutcome :=
  if RESP_BUF_SIZE ≤ payload.length then .malformed
  else if payload.length = 0 then .malformed
  else if cString payload = expectedToken s then .accepted
  else .rejected

/-- `post_response_handler` (main.c lines 140-183) in full: next state,
outcome, and the trace of LED writes, HTTP responses and delays it
performs, in program order.  On acceptance: `lock_is_open = true`, LED
green, 200 "Unlocked".  On rejection: LED blue, 401 "Invalid token",
`vTaskDelay(pdMS_TO_TICKS(4000))`, then `lock_is_open = false` and LED
red.  The oversized and empty branches return before touching any
state. -/
def postResponse (s : LockState) (payload : List Nat) :
    LockState × VerifyOutcome × List Event :=
  if RESP_BUF_SIZE ≤ payload.length then
    (s, .malformed, [.respondErr 400 (strBytes "Response too long")])
  else if payload.length = 0 then
    (s, .malformed, [.respondErr 400 (strBytes "No response data received")])
  else if cString payload = expectedToken s then
    ({ s with lockIsOpen := true, led := green }, .accepted,
      [.setLed green, .respondOk (strBytes "Unlocked")])
  else
    ({ s with lockIsOpen := false, led := red }, .rejected,
      [.setLed blue, .respondErr 401 (strBytes "Invalid token"),
        .delayMs 4000, .setLed red])

/-- A request handled by the firmware: GET /challenge with the value the
entropy source returns, or POST /response with the body payload. -/
inductive Op where
  | issue (randVal : Nat)
  | verify (payload : List Nat)

/-- State transition of one handled request. -/
def step (s : LockState) : Op → LockState
  | .issue r => (getChallenge s r).1
  | .verify p => (postResponse s p).1

/-- State after a sequence of requests handled in order (the HTTP server
is single-threaded, so requests are serialized). -/
def run (s : LockState) (ops : List Op) : LockState := ops.foldl step s

/-! ## Helper lemmas -/

/-- A NUL-free byte list is its own C-string value. -/
theorem cString_eq_of_nul_free : ∀ (l : List Nat), 0 ∉ l → cString l = l := by
  intro l
  induction l with
  | nil => intro _; rfl
  | cons a t ih =>
    intro h
    rw [List.mem_cons, not_or] at h
    have ha : (a != 0) = true := by
      simp only [bne_iff_ne, ne_eq]
      exact fun hc => h.1 hc.symm
    simp only [cString, List.takeWhile_cons, ha, if_true]
    exact congrArg (a :: ·) (ih h.2)

/-- The byte list of the pre-shared key is NUL-free. -/
theorem defaultKey_nul_free : 0 ∉ defaultKey := by decide

/-- Characterization of acceptance for in-bounds nonempty payloads. -/
theorem verifyOutcome_accepted_iff (s : LockState) (p : List Nat)
    (h1 : 0 < p.length) (h2 : p.length < RESP_BUF_SIZE) :
    verifyOutcome s p = .accepted ↔ cString p = expectedToken s := by
  unfold verifyOutcome
  rw [if_neg (by omega), if_neg (by omega)]
  by_cases he : cString p = expectedToken s
  · simp [he]
  · simp [he]

/-- Characterization of rejection for in-bounds nonempty payloads. -/
theorem verifyOutcome_rejected_iff (s : LockState) (p : List Nat)
    (h1 : 0 < p.length) (h2 : p.length < RESP_BUF_SIZE) :
    verifyOutcome s p = .rejected ↔ cString p ≠ expectedToken s := by
  unfold verifyOutcome
  rw [if_neg (by omega), if_neg (by omega)]
  by_cases he : cString p = expectedToken s
  · simp [he]
  · simp [he]

/-- Full effect of an accepted verification. -/
theorem postResponse_of_accepted (s : LockState) (p : List Nat)
    (h : verifyOutcome s p = .accepted) :
    postResponse s p = ({ s with lockIsOpen := true, led := green }, .accepted,
      [.setLed green, .respondOk (strBytes "Unlocked")]) := by
  unfold verifyOutcome at h
  unfold postResponse
  split_ifs at h ⊢
  all_goals simp_all

/-- Full effect of a rejected verification. -/
theorem postResponse_of_rejected (s : LockState) (p : List Nat)
    (h : verifyOutcome s p = .rejected) :
    postResponse s p = ({ s with lockIsOpen := false, led := red }, .rejected,
      [.setLed blue, .respondErr 401 (strBytes "Invalid token"),
        .delayMs 4000, .setLed red]) := by
  unfold verifyOutcome at h
  unfold postResponse
  split_ifs at h ⊢
  all_goals simp_all

/-- From a locked state, the only request whose handling can leave the lock
open is a verification that was accepted. -/
theorem lock_opens_only_on_accept (s : LockState) (op : Op)
    (hL : s.lockIsOpen = false) (hU : (step s op).lockIsOpen = true) :
    ∃ p, op = Op.verify p ∧ verifyOutcome s p = .accepted := by
  cases op with
  | issue r =>
    exfalso
    simp only [step, getChallenge] at hU
    rw [hL] at hU
    exact Bool.false_ne_true hU
  | verify p =>
    refine ⟨p, rfl, ?_⟩
    simp only [step] at hU
    unfold postResponse at hU
    unfold verifyOutcome
    split_ifs at hU ⊢ <;> simp_all

/-! ## Claims -/

/-- C1, counterexample: issue challenge 482913, verify once with the
correct payload (Accepted), then verify again with the same payload and no
new issuance in between.  The claim says the second call yields Rejected;
in the code `post_response_handler` never writes `current_challenge`, so
the second call is Accepted, not Rejected. -/
theorem c1_counterexample :
    verifyOutcome (step initState (.issue 482913))
      (strBytes "482913DEFAULT_KEY") = .accepted ∧
    ¬ (verifyOutcome
        (step (step initState (.issue 482913))
          (.verify (strBytes "482913DEFAULT_KEY")))
        (strBytes "482913DEFAULT_KEY") = .rejected) := by
  decide

/-- C1 (amended): Verify does not invalidate the outstanding challenge;
with the correct in-bounds NUL-free payload, the first call yields
Accepted and a second call with the same payload, with no new issuance in
between, yields Accepted again. -/
theorem c1_verify_does_not_consume_challenge (s : LockState) (p : List Nat)
    (hp : p = expectedToken s) (h1 : 0 < p.length)
    (h2 : p.length < RESP_BUF_SIZE) (h3 : 0 ∉ p) :
    verifyOutcome s p = .accepted ∧
    verifyOutcome (step s (.verify p)) p = .accepted := by
  have hacc : verifyOutcome s p = .accepted := by
    rw [verifyOutcome_accepted_iff s p h1 h2, cString_eq_of_nul_free p h3]
    exact hp
  refine ⟨hacc, ?_⟩
  have hstep : step s (.verify p) = { s with lockIsOpen := true, led := green } := by
    simp only [step]
    rw [postResponse_of_accepted s p hacc]
  rw [hstep, verifyOutcome_accepted_iff _ p h1 h2, cString_eq_of_nul_free p h3]
  exact hp

/-- C1 witness: the amended statement at the concrete run of the
counterexample. -/
theorem c1_witness :
    verifyOutcome (step initState (.issue 482913))
      (strBytes "482913DEFAULT_KEY") = .accepted ∧
    verifyOutcome
      (step (step initState (.issue 482913))
        (.verify (strBytes "482913DEFAULT_KEY")))
      (strBytes "482913DEFAULT_KEY") = .accepted :=
  c1_verify_does_not_consume_challenge (step initState (.issue 482913))
    (strBytes "482913DEFAULT_KEY") (by decide) (by decide) (by decide) (by decide)

/-- C2, counterexample: before any issuance the challenge buffer is
zero-initialized, so the expected token is `"" ++ "DEFAULT_KEY"`; the
payload `"DEFAULT_KEY"` is Accepted, not Rejected as the claim states for
every payload. -/
theorem c2_counterexample :
    verifyOutcome initState (strBytes "DEFAULT_KEY") = .accepted ∧
    ¬ (verifyOutcome initState (strBytes "DEFAULT_KEY") = .rejected) := by
  decide

/-- C2 (amended): before any issuance the outstanding challenge is the
empty string, so the expected token is just the pre-shared key; every
in-bounds nonempty payload whose C-string value differs from the key is
Rejected (but the key itself is Accepted, and out-of-bounds or empty
payloads are Malformed). -/
theorem c2_reject_before_issue (p : List Nat)
    (h1 : 0 < p.length) (h2 : p.length < RESP_BUF_SIZE)
    (h3 : cString p ≠ defaultKey) :
    verifyOutcome initState p = .rejected :=
  (verifyOutcome_rejected_iff initState p h1 h2).mpr h3

/-- C2 witness: a wrong guess before any issuance is Rejected. -/
theorem c2_witness :
    0 < (strBytes "LETMEIN").length ∧
    (strBytes "LETMEIN").length < RESP_BUF_SIZE ∧
    cString (strBytes "LETMEIN") ≠ defaultKey ∧
    verifyOutcome initState (strBytes "LETMEIN") = .rejected :=
  ⟨by decide, by decide, by decide,
    c2_reject_before_issue (strBytes "LETMEIN") (by decide) (by decide) (by decide)⟩

/-- C3, counterexample: with challenge 482913 outstanding, the payload
formed by the expected token followed by the extra bytes `[0, 88]` (a
strict extension beginning with a NUL byte, still in bounds) is Accepted:
`strcmp` stops at the payload's first NUL, so the decision is C-string
equality, not byte-for-byte equality of the whole payload. -/
theorem c3_counterexample :
    strBytes "482913DEFAULT_KEY" =
      expectedToken (step initState (.issue 482913)) ∧
    (strBytes "482913DEFAULT_KEY" ++ [0, 88]).length < RESP_BUF_SIZE ∧
    ¬ (verifyOutcome (step initState (.issue 482913))
        (strBytes "482913DEFAULT_KEY" ++ [0, 88]) = .rejected) := by
  decide

/-- C3 (amended): for in-bounds nonempty payloads the decision is equality
of the payload's C-string value with the expected token; in particular for
NUL-free payloads the decision is exact byte-for-byte equality, so any
strict extension of the expected value by nonzero bytes is Rejected, but
an extension beginning with a NUL byte is Accepted. -/
theorem c3_exact_equality_for_nul_free (s : LockState) (p : List Nat)
    (h1 : 0 < p.length) (h2 : p.length < RESP_BUF_SIZE) (h3 : 0 ∉ p) :
    verifyOutcome s p = .accepted ↔ p = expectedToken s := by
  rw [verifyOutcome_accepted_iff s p h1 h2, cString_eq_of_nul_free p h3]

/-- C3 witness: the amended equivalence at a concrete state and payload. -/
theorem c3_witness :
    0 < (strBytes "DEFAULT_KEY").length ∧
    (strBytes "DEFAULT_KEY").length < RESP_BUF_SIZE ∧
    0 ∉ strBytes "DEFAULT_KEY" ∧
    (verifyOutcome initState (strBytes "DEFAULT_KEY") = .accepted ↔
      strBytes "DEFAULT_KEY" = expectedToken initState) :=
  ⟨by decide, by decide, by decide,
    c3_exact_equality_for_nul_free initState (strBytes "DEFAULT_KEY")
      (by decide) (by decide) (by decide)⟩

/-- C4: whenever a verification is Rejected, starting from any state, the
handler sets the LED blue, answers 401, blocks 4000 ms, and only then
clears `lock_is_open` and sets the LED red: the trace is exactly
blue-respond-delay-red and the final state is Locked with a red LED. -/
theorem c4_rejected_hold_forces_locked (s : LockState) (p : List Nat)
    (h : verifyOutcome s p = .rejected) :
    postResponse s p = ({ s with lockIsOpen := false, led := red }, .rejected,
      [.setLed blue, .respondErr 401 (strBytes "Invalid token"),
        .delayMs 4000, .setLed red]) :=
  postResponse_of_rejected s p h

/-- C4 witness: a rejected verification from the unlocked state still ends
Locked with a red LED after the 4000 ms hold. -/
theorem c4_witness :
    verifyOutcome { initState with lockIsOpen := true, led := green }
      (strBytes "482913WRONGKEY") = .rejected ∧
    postResponse { initState with lockIsOpen := true, led := green }
      (strBytes "482913WRONGKEY") =
      ({ initState with lockIsOpen := false, led := red }, .rejected,
        [.setLed blue, .respondErr 401 (strBytes "Invalid token"),
          .delayMs 4000, .setLed red]) :=
  ⟨by decide,
    c4_rejected_hold_forces_locked { initState with lockIsOpen := true, led := green }
      (strBytes "482913WRONGKEY") (by decide)⟩

/-- C5: whenever a verification is Accepted, the handler sets
`lock_is_open`, drives the LED green, and answers 200 "Unlocked" to the
caller. -/
theorem c5_accepted_unlocks (s : LockState) (p : List Nat)
    (h : verifyOutcome s p = .accepted) :
    postResponse s p = ({ s with lockIsOpen := true, led := green }, .accepted,
      [.setLed green, .respondOk (strBytes "Unlocked")]) :=
  postResponse_of_accepted s p h

/-- C5 witness: the end-to-end accepted scenario after issuing challenge
482913. -/
theorem c5_witness :
    verifyOutcome (step initState (.issue 482913))
      (strBytes "482913DEFAULT_KEY") = .accepted ∧
    postResponse (step initState (.issue 482913))
      (strBytes "482913DEFAULT_KEY") =
      ({ step initState (.issue 482913) with lockIsOpen := true, led := green },
        .accepted, [.setLed green, .respondOk (strBytes "Unlocked")]) :=
  ⟨by decide,
    c5_accepted_unlocks (step initState (.issue 482913))
      (strBytes "482913DEFAULT_KEY") (by decide)⟩

/-- C6: an oversized (length at or beyond 64) or empty payload yields the
Malformed outcome, which is distinct from Rejected; the handler's only
effect is a 400 response, and the whole state (challenge, key, lock flag,
LED) is left untouched. -/
theorem c6_malformed_no_state_change (s : LockState) (p : List Nat)
    (h : RESP_BUF_SIZE ≤ p.length ∨ p.length = 0) :
    (postResponse s p).2.1 = .malformed ∧ (postResponse s p).1 = s ∧
    (∃ m, (postResponse s p).2.2 = [Event.respondErr 400 m]) ∧
    VerifyOutcome.malformed ≠ VerifyOutcome.rejected := by
  unfold postResponse
  rcases h with h | h
  · rw [if_pos h]
    exact ⟨rfl, rfl, ⟨_, rfl⟩, by decide⟩
  · by_cases h64 : RESP_BUF_SIZE ≤ p.length
    · rw [if_pos h64]
      exact ⟨rfl, rfl, ⟨_, rfl⟩, by decide⟩
    · rw [if_neg h64, if_pos h]
      exact ⟨rfl, rfl, ⟨_, rfl⟩, by decide⟩

/-- C6 witness: a 64-byte payload is Malformed and changes nothing. -/
theorem c6_witness :
    (RESP_BUF_SIZE ≤ (List.replicate 64 65).length ∨
      (List.replicate 64 65).length = 0) ∧
    ((postResponse initState (List.replicate 64 65)).2.1 = .malformed ∧
      (postResponse initState (List.replicate 64 65)).1 = initState ∧
      (∃ m, (postResponse initState (List.replicate 64 65)).2.2 =
        [Event.respondErr 400 m]) ∧
      VerifyOutcome.malformed ≠ VerifyOutcome.rejected) :=
  ⟨Or.inl (by decide),
    c6_malformed_no_state_change initState (List.replicate 64 65)
      (Or.inl (by decide))⟩

/-- C7, counterexample: the first issuance draws 5 (challenge "5"), and a
subsequent issuance draws 5 again, so the stored challenge is unchanged;
the old payload `"5" ++ key` is then still Accepted, not Rejected: the
claim fails when the entropy source repeats a value. -/
theorem c7_counterexample :
    (getChallenge initState 5).2 = renderU32 5 ∧
    ¬ (verifyOutcome (step (step initState (.issue 5)) (.issue 5))
        (renderU32 5 ++ defaultKey) = .rejected) := by
  decide

/-- C7 (amended): a subsequent issuance invalidates the old challenge
whenever the newly issued token differs from the old one: if the new
random value renders to a token distinct from `oldC`, then verifying the
old payload `oldC ++ key` after the new issuance is Rejected. -/
theorem c7_new_issue_invalidates_old (s : LockState) (oldC : List Nat) (r : Nat)
    (hkey : s.preSharedKey = defaultKey)
    (hnul : 0 ∉ oldC)
    (hdiff : renderU32 r ≠ oldC)
    (hlen : oldC.length + 11 < RESP_BUF_SIZE) :
    verifyOutcome (step s (.issue r)) (oldC ++ defaultKey) = .rejected := by
  have hdl : defaultKey.length = 11 := by decide
  have hlen2 : (oldC ++ defaultKey).length = oldC.length + 11 := by
    rw [List.length_append, hdl]
  have h1 : 0 < (oldC ++ defaultKey).length := by omega
  have h2 : (oldC ++ defaultKey).length < RESP_BUF_SIZE := by omega
  rw [verifyOutcome_rejected_iff _ _ h1 h2]
  have hnulall : 0 ∉ oldC ++ defaultKey := by
    intro hmem
    rcases List.mem_append.mp hmem with hm | hm
    · exact hnul hm
    · exact defaultKey_nul_free hm
  rw [cString_eq_of_nul_free _ hnulall]
  intro heq
  have hexp : expectedToken (step s (.issue r)) = renderU32 r ++ defaultKey := by
    simp [step, getChallenge, expectedToken, hkey]
  rw [hexp] at heq
  exact hdiff (List.append_cancel_right heq).symm

/-- C7 witness: challenge "7" issued, then challenge "5" issued; the old
payload is Rejected. -/
theorem c7_witness :
    (step initState (.issue 7)).preSharedKey = defaultKey ∧
    0 ∉ renderU32 7 ∧
    renderU32 5 ≠ renderU32 7 ∧
    (renderU32 7).length + 11 < RESP_BUF_SIZE ∧
    verifyOutcome (step (step initState (.issue 7)) (.issue 5))
      (renderU32 7 ++ defaultKey) = .rejected :=
  ⟨by decide, by decide, by decide, by decide,
    c7_new_issue_invalidates_old (step initState (.issue 7)) (renderU32 7) 5
      (by decide) (by decide) (by decide) (by decide)⟩

/-- C8: reachable-state invariant: starting from the initial Locked state,
if after any sequence of handled requests the lock is still Locked and one
more request leaves it Unlocked, that request was a verification whose
outcome was Accepted — no issuance, malformed call or completed rejected
hold ever takes the state from Locked to Unlocked. -/
theorem c8_unlocked_only_after_accept (ops : List Op) (op : Op)
    (hL : (run initState ops).lockIsOpen = false)
    (hU : (step (run initState ops) op).lockIsOpen = true) :
    ∃ p, op = Op.verify p ∧ verifyOutcome (run initState ops) p = .accepted :=
  lock_opens_only_on_accept (run initState ops) op hL hU

/-- C8 witness: from the initial state, the one request that unlocks is an
accepted verification. -/
theorem c8_witness :
    (run initState []).lockIsOpen = false ∧
    (step (run initState []) (Op.verify (strBytes "DEFAULT_KEY"))).lockIsOpen
      = true ∧
    ∃ p, Op.verify (strBytes "DEFAULT_KEY") = Op.verify p ∧
      verifyOutcome (run initState []) p = .accepted :=
  ⟨by decide, by decide,
    c8_unlocked_only_after_accept [] (Op.verify (strBytes "DEFAULT_KEY"))
      (by decide) (by decide)⟩

/-- C9: two back-to-back issuances with no verification in between leave
the lock flag, the LED and the key untouched; the only state component
that changes is the outstanding challenge, which afterwards holds the
second issuance's token, and the call returns exactly that token. -/
theorem c9_issue_issue_frame (s : LockState) (r1 r2 : Nat) :
    (getChallenge (getChallenge s r1).1 r2).1.lockIsOpen = s.lockIsOpen ∧
    (getChallenge (getChallenge s r1).1 r2).1.led = s.led ∧
    (getChallenge (getChallenge s r1).1 r2).1.preSharedKey = s.preSharedKey ∧
    (getChallenge (getChallenge s r1).1 r2).1.currentChallenge = renderU32 r2 ∧
    (getChallenge (getChallenge s r1).1 r2).2 = renderU32 r2 :=
  ⟨rfl, rfl, rfl, rfl, rfl⟩

/-- C10: no branch of the verification handler writes the challenge slot —
the stored challenge after any Verify equals the stored challenge before
it — and the slot is written by issuance, which stores the rendering of
the fresh random value. -/
theorem c10_verify_preserves_challenge_slot (s : LockState) (p : List Nat)
    (r : Nat) :
    (postResponse s p).1.currentChallenge = s.currentChallenge ∧
    (getChallenge s r).1.currentChallenge = renderU32 r := by
  constructor
  · unfold postResponse
    split_ifs <;> rfl
  · rfl
